import Mathlib

/-!
Verification of the Py-Terminal shell emulator (`src/bs.py`).

The Python program is shallowly embedded: the `Terminal` object's mutable
fields become the `Session` structure, the operating system (filesystem,
process working directory, `shlex`, `subprocess`) becomes the `OS` structure
holding explicit state plus oracles for the outcomes of system calls, and each
`handle_*` method becomes a pure function from `(OS, Session, args)` to an
`ExecResult` carrying the new state, the printed lines and the boolean the
method returns (`true` = continue the loop, `false` = exit).
-/

namespace PyTerminal

/-- Python `str.strip` whitespace set (ASCII portion). -/
def pyIsSpace (c : Char) : Bool :=
  c = ' ' ∨ c = '\t' ∨ c = '\n' ∨ c = '\r' ∨ c = '\x0b' ∨ c = '\x0c'

/-- Python `str.strip()` as used by `run` (`input().strip()`). -/
def pyStrip (s : String) : String :=
  String.mk (((s.data.dropWhile pyIsSpace).reverse.dropWhile pyIsSpace).reverse)

/-- Python `str.lower()` on the ASCII range, which is all the dispatcher
compares against (command names are ASCII literals in the source). -/
def lowerChar (c : Char) : Char :=
  if 'A' ≤ c ∧ c ≤ 'Z' then Char.ofNat (c.toNat + 32) else c

/-- Python `str.lower()` as used by `execute_command` (`args[0].lower()`). -/
def pyLower (s : String) : String := String.mk (s.data.map lowerChar)

/-- Is `p` an initial segment of `s` (character lists)? -/
def isHeadOf : List Char → List Char → Bool
  | [], _ => true
  | _ :: _, [] => false
  | x :: xs, y :: ys => x = y && isHeadOf xs ys

/-- Python `str.startswith` as used by `handle_cd`. -/
def pyStartsWith (s p : String) : Bool := isHeadOf p.data s.data

/-- Python string `<=` (lexicographic on code points), used through the
tuple sort key of `handle_dir`.  Comparison is on `Char.toNat` so that the
order is literally the code-point order Python uses. -/
def charListLe : List Char → List Char → Bool
  | [], _ => true
  | _ :: _, [] => false
  | x :: xs, y :: ys =>
    if x.toNat = y.toNat then charListLe xs ys else decide (x.toNat < y.toNat)

/-- `<=` on strings, Python semantics (code-point lexicographic). -/
def pyStrLe (a b : String) : Bool := charListLe a.data b.data

/-- Paths are strings, as in the Python source (`os.path` works on `str`). -/
abbrev Path := String

/-- `os.path.isabs` on POSIX: starts with a slash. -/
def isAbs (p : Path) : Bool := pyStartsWith p "/"

/-- `os.path.join(a, b)` on POSIX for two components, as called by
`handle_cd`: an absolute second component wins; otherwise concatenate with a
separating slash unless `a` is empty or already ends in one. -/
def pathJoin (a b : Path) : Path :=
  if isAbs b then b
  else if a = "" ∨ a.data.getLast? = some '/' then a ++ b
  else a ++ "/" ++ b

/-- `os.path.expanduser(p)` for `p` starting with `~`, with the home
directory given explicitly: bare `~` or `~/rest` expand to the home; a
`~user` form (other-user lookup) is modelled as the no-op that
`expanduser` performs when the user is unknown. -/
def expanduser (home : Path) (p : Path) : Path :=
  if p = "~" then home
  else if pyStartsWith p "~/" then home ++ String.mk (p.data.drop 1)
  else p

/-- How the OS resolves a path given to a system call: an absolute path is
used as is, a relative one is resolved against the process working
directory (this is also `pathlib.Path.absolute()`). -/
def absOf (cwd p : Path) : Path := if isAbs p then p else pathJoin cwd p

/-- The mutable fields of the `Terminal` object (`Terminal.__init__`). -/
structure Session where
  current_dir : Path
  username : String
  hostname : String
  history : List String

/-- The set literal `Terminal.builtin_commands` (never consulted by the
dispatcher, kept for fidelity). -/
def builtin_commands : List String :=
  ["cd", "pwd", "exit", "help", "clear", "cls", "history",
   "echo", "dir", "ls", "cat", "type", "mkdir", "md", "rmdir", "rd"]

/-- Outcome of `os.chdir(p)`: on success `getcwd()` afterwards reports the
canonical form `canon` of the target. -/
inductive ChdirOutcome where
  | ok (canon : Path)
  | notFound
  | permission
  | err (msg : String)
deriving DecidableEq

/-- `true` exactly on the success constructor. -/
def ChdirOutcome.isOk : ChdirOutcome → Bool
  | .ok _ => true
  | _ => false

/-- Outcome of `open(p).read()`. -/
inductive OpenOutcome where
  | ok (content : String)
  | notFound
  | permission
  | err (msg : String)
deriving DecidableEq

/-- One `os.scandir`-level entry of a directory as `handle_dir` consumes it:
name, directory flag, byte size, the already-formatted modification-time
column, and whether `stat` succeeds (`accessible = false` models the
per-entry `OSError`/`PermissionError` branch). -/
structure Entry where
  name : String
  isDir : Bool
  size : Nat
  mtimeStr : String
  accessible : Bool
deriving DecidableEq

/-- A directory as seen by `handle_dir`: its entries and whether
`path.parent == path` (filesystem root). -/
structure DirInfo where
  entries : List Entry
  isRoot : Bool
deriving DecidableEq

/-- Outcome of the existence / kind / iteration checks of `handle_dir`. -/
inductive DirLookup where
  | missing
  | notDir
  | denied
  | err (msg : String)
  | ok (info : DirInfo)
deriving DecidableEq

/-- Outcome of `subprocess.run`. -/
inductive SpawnOutcome where
  | ok
  | notFound
  | err (msg : String)
deriving DecidableEq

/-- The filesystem as the built-ins touch it.  `dirs` is the set of existing
directories (by absolute path), `dirNonEmpty` marks those with contents;
`readFile`, `mkdirErr` and `lookupDir` are oracles for the outcomes of the
respective system calls, keyed by absolute path. -/
structure FS where
  dirs : Path → Bool
  dirNonEmpty : Path → Bool
  readFile : Path → OpenOutcome
  mkdirErr : Path → Option String
  lookupDir : Path → DirLookup

/-- The process-level environment: filesystem, process working directory
(`os.getcwd`), home directory (`os.path.expanduser("~")`), and oracles for
`os.chdir`, `shlex.split` (`none` = `ValueError`) and `subprocess.run`. -/
structure OS where
  fs : FS
  oscwd : Path
  home : Path
  chdirRes : Path → ChdirOutcome
  shlexRes : String → Option (List String)
  spawnRes : List String → Path → SpawnOutcome

/-- Result of one dispatched command: new environment, new session, the
lines printed, and the boolean returned to the loop (`true` = continue). -/
structure ExecResult where
  os : OS
  session : Session
  output : List String
  cont : Bool

/-- The target-path computation of `handle_cd` (lines 102–114): no argument
means home; otherwise expand a leading `~`, then join a relative result
against the session's `current_dir`. -/
def cdTarget (home cwd : Path) (args : List String) : Path :=
  match args with
  | _ :: arg :: _ =>
    let t := if pyStartsWith arg "~" then expanduser home arg else arg
    if isAbs t then t else pathJoin cwd t
  | _ => home

/-- The Path Resolver exactly as the spec words it (section 4.3, rules 2–3),
for comparison with `cdTarget`: expand a leading `~`, then join a
non-absolute result against the current working directory. -/
def resolvePathSpec (home cwd : Path) (p : Path) : Path :=
  let t := if pyStartsWith p "~" then expanduser home p else p
  if isAbs t then t else pathJoin cwd t

/-- `Terminal.handle_cd`: resolve the target, attempt `os.chdir`; on success
re-read `getcwd()` into `current_dir`; on any failure print one diagnostic
and leave all state unchanged.  Always returns `true`. -/
def handle_cd (w : OS) (s : Session) (args : List String) : ExecResult :=
  match w.chdirRes (cdTarget w.home s.current_dir args) with
  | .ok canon =>
      { os := { w with oscwd := canon },
        session := { s with current_dir := canon }, output := [], cont := true }
  | .notFound =>
      ⟨w, s, ["cd: " ++ cdTarget w.home s.current_dir args
                ++ ": No such file or directory"], true⟩
  | .permission =>
      ⟨w, s, ["cd: " ++ cdTarget w.home s.current_dir args
                ++ ": Permission denied"], true⟩
  | .err m => ⟨w, s, ["cd: " ++ m], true⟩

/-- `Terminal.handle_pwd`. -/
def handle_pwd (w : OS) (s : Session) : ExecResult :=
  ⟨w, s, [s.current_dir], true⟩

/-- The fixed text printed by `Terminal.handle_help`. -/
def helpLines : List String :=
  ["Built-in commands:",
   "  cd [dir]        - Change directory",
   "  pwd             - Print working directory",
   "  echo [text]     - Print text",
   "  dir/ls [path]   - List directory contents",
   "  cat/type [file] - Display file contents",
   "  mkdir/md [dir]  - Create directory",
   "  rmdir/rd [dir]  - Remove empty directory",
   "  history         - Show command history",
   "  clear/cls       - Clear screen",
   "  help            - Show this help",
   "  exit            - Exit terminal",
   "\nOther commands will be executed as external programs."]

/-- `Terminal.handle_help`. -/
def handle_help (w : OS) (s : Session) : ExecResult :=
  ⟨w, s, helpLines, true⟩

/-- `Terminal.handle_clear`: runs the platform screen-clear program; it
writes to the terminal device, not through the session's output, and its
failure is ignored. -/
def handle_clear (w : OS) (s : Session) : ExecResult :=
  ⟨w, s, [], true⟩

/-- Python `f"{i:4d}"`: decimal, right-aligned to width 4 with spaces. -/
def fmtHistIndex (i : Nat) : String :=
  let d := toString i
  (if d.length < 4 then String.mk (List.replicate (4 - d.length) ' ') else "")
    ++ d

/-- The lines printed by `handle_history`: `enumerate(self.history, 1)`
rendered as `f"{i:4d}  {cmd}"`. -/
def historyLines (h : List String) : List String :=
  (List.enumFrom 1 h).map (fun p => fmtHistIndex p.1 ++ "  " ++ p.2)

/-- `Terminal.handle_history`. -/
def handle_history (w : OS) (s : Session) : ExecResult :=
  ⟨w, s, historyLines s.history, true⟩

/-- `" ".join(args[1:])`. -/
def joinSpace : List String → String
  | [] => ""
  | [x] => x
  | x :: y :: xs => x ++ " " ++ joinSpace (y :: xs)

/-- `Terminal.handle_echo`: join the arguments after the command name with
single spaces, or print a blank line when there are none. -/
def handle_echo (w : OS) (s : Session) (args : List String) : ExecResult :=
  match args with
  | _ :: y :: xs => ⟨w, s, [joinSpace (y :: xs)], true⟩
  | _ => ⟨w, s, [""], true⟩

/-- Insert a `,` before every third digit, counting from the right; the
input is the digit list already reversed. -/
def groupRev : Nat → List Char → List Char
  | _, [] => []
  | n, c :: cs =>
    if n ≠ 0 ∧ n % 3 = 0 then ',' :: c :: groupRev (n + 1) cs
    else c :: groupRev (n + 1) cs

/-- Python `f"{n:,}"` for a natural number: decimal digits with thousands
separators. -/
def pyComma (n : Nat) : String :=
  String.mk (groupRev 0 (toString n).data.reverse).reverse

/-- Python `f"{s:>w}"`: right-align with spaces to width `w`. -/
def rightAlign (w : Nat) (s : String) : String :=
  (if s.length < w then String.mk (List.replicate (w - s.length) ' ') else "")
    ++ s

/-- `false < true`, the Boolean order Python uses inside tuple keys. -/
def boolLt (a b : Bool) : Bool := !a && b

/-- The sort key of `handle_dir`, line 183:
`(not x.is_dir(), x.name.lower())`. -/
def entryKey (e : Entry) : Bool × String := (!e.isDir, pyLower e.name)

/-- Python `<=` on `(bool, str)` tuples: lexicographic, `False < True`,
then code-point string order. -/
def keyLe (a b : Bool × String) : Bool :=
  boolLt a.1 b.1 || (a.1 == b.1 && pyStrLe a.2 b.2)

/-- Entry comparison induced by `entryKey`. -/
def entryLe (a b : Entry) : Bool := keyLe (entryKey a) (entryKey b)

/-- `items.sort(key=lambda x: (not x.is_dir(), x.name.lower()))`: Python's
stable sort by the composite key, embedded as a stable merge sort under
`entryLe`. -/
def sortEntries (items : List Entry) : List Entry := items.mergeSort entryLe

/-- The three counters of `handle_dir`'s loop. -/
structure DirCounts where
  file_count : Nat
  dir_count : Nat
  total_size : Nat

/-- One loop iteration's effect on the counters (lines 194–209): an entry
whose `stat` fails is listed but not counted; a directory bumps
`dir_count`; a file bumps `file_count` and adds its size. -/
def countEntry (c : DirCounts) (e : Entry) : DirCounts :=
  if !e.accessible then c
  else if e.isDir then { c with dir_count := c.dir_count + 1 }
  else { c with file_count := c.file_count + 1,
                total_size := c.total_size + e.size }

/-- Final counter values: the synthetic parent entry pre-loads `dir_count`
with 1 when the directory is not its own root (lines 189–192), then the
sorted entries are folded through `countEntry`. -/
def dirCounts (d : DirInfo) : DirCounts :=
  (sortEntries d.entries).foldl countEntry ⟨0, if d.isRoot then 0 else 1, 0⟩

/-- The printed row for one entry (lines 199–209). -/
def entryRow (e : Entry) : String :=
  if !e.accessible then
    rightAlign 12 "???" ++ "          " ++ e.name ++ " (access denied)"
  else if e.isDir then
    e.mtimeStr ++ " " ++ rightAlign 12 "<DIR>" ++ "          " ++ e.name
  else
    e.mtimeStr ++ " " ++ rightAlign 12 (pyComma e.size) ++ "          "
      ++ e.name

/-- All entry rows: the synthetic `..` row first when the directory is not
its own root, then the sorted entries. -/
def dirRows (d : DirInfo) : List String :=
  (if d.isRoot then [] else [rightAlign 12 "<DIR>" ++ "          .."])
    ++ (sortEntries d.entries).map entryRow

/-- The two summary lines (lines 211–212). -/
def dirSummary (c : DirCounts) : List String :=
  ["\n" ++ rightAlign 16 (toString c.file_count) ++ " File(s) "
     ++ rightAlign 15 (pyComma c.total_size) ++ " bytes",
   rightAlign 16 (toString c.dir_count) ++ " Dir(s)"]

/-- Everything `handle_dir` prints for a target path, which the OS resolves
against the process working directory (`Path(target_dir)` with a relative
string): existence and kind checks, header, rows, summary. -/
def dirOutput (w : OS) (target : Path) : List String :=
  match w.fs.lookupDir (absOf w.oscwd target) with
  | .missing => ["Directory not found: " ++ target]
  | .notDir => ["Not a directory: " ++ target]
  | .denied => ["Access denied: " ++ target]
  | .err m => ["Error listing directory: " ++ m]
  | .ok d =>
      ["\nDirectory of " ++ absOf w.oscwd target ++ "\n"]
        ++ dirRows d ++ dirSummary (dirCounts d)

/-- `Terminal.handle_dir`: the target is `current_dir` without an argument,
else `args[1]` verbatim.  Mutates nothing, always returns `true`. -/
def handle_dir (w : OS) (s : Session) (args : List String) : ExecResult :=
  match args with
  | _ :: a :: _ => ⟨w, s, dirOutput w a, true⟩
  | _ => ⟨w, s, dirOutput w s.current_dir, true⟩

/-- Everything `handle_cat` prints for a filename, which `open` resolves
against the process working directory. -/
def catOutput (w : OS) (filename : Path) : List String :=
  match w.fs.readFile (absOf w.oscwd filename) with
  | .ok content => [content]
  | .notFound => ["File not found: " ++ filename]
  | .permission => ["Permission denied: " ++ filename]
  | .err m => ["Error reading file: " ++ m]

/-- `Terminal.handle_cat`: usage line without an argument, else read
`args[1]` verbatim.  Always returns `true`. -/
def handle_cat (w : OS) (s : Session) (args : List String) : ExecResult :=
  match args with
  | _ :: filename :: _ => ⟨w, s, catOutput w filename, true⟩
  | _ => ⟨w, s, ["Usage: cat/type <filename>"], true⟩

/-- `Terminal.handle_mkdir`: `os.makedirs(dirname, exist_ok=True)` on
`args[1]` verbatim; on success the directory (parents abstracted) exists
afterwards.  Always returns `true`. -/
def handle_mkdir (w : OS) (s : Session) (args : List String) : ExecResult :=
  match args with
  | _ :: dirname :: _ =>
    (match w.fs.mkdirErr (absOf w.oscwd dirname) with
     | none =>
        ⟨{ w with fs := { w.fs with
             dirs := fun p => p == absOf w.oscwd dirname || w.fs.dirs p } },
          s, ["Directory created: " ++ dirname], true⟩
     | some m => ⟨w, s, ["Error creating directory: " ++ m], true⟩)
  | _ => ⟨w, s, ["Usage: mkdir/md <directory>"], true⟩

/-- Outcome space of `os.rmdir` as `handle_rmdir` discriminates it:
success, `FileNotFoundError`, `OSError` with an errno, other exception. -/
inductive RmdirOutcome where
  | ok (fs' : FS)
  | notFound
  | osErr (errno : Nat) (msg : String)
  | exc (msg : String)

/-- `os.rmdir(p)` modelled as on Linux, where `ENOTEMPTY` is errno 39 (the
code the source tests for): a missing directory raises
`FileNotFoundError`, a non-empty one raises `OSError(39)`, otherwise the
directory is removed. -/
def osRmdir (w : OS) (p : Path) : RmdirOutcome :=
  let a := absOf w.oscwd p
  if w.fs.dirs a = false then .notFound
  else if w.fs.dirNonEmpty a then .osErr 39 "Directory not empty"
  else .ok { w.fs with dirs := fun q => if q == a then false else w.fs.dirs q }

/-- `Terminal.handle_rmdir`: usage line without an argument; otherwise
`os.rmdir(args[1])` with the source's errno test (`e.errno == 39`) picking
the specific not-empty message.  Always returns `true`. -/
def handle_rmdir (w : OS) (s : Session) (args : List String) : ExecResult :=
  match args with
  | _ :: dirname :: _ =>
    (match osRmdir w dirname with
     | .ok fs' => ⟨{ w with fs := fs' }, s,
                    ["Directory removed: " ++ dirname], true⟩
     | .notFound => ⟨w, s, ["Directory not found: " ++ dirname], true⟩
     | .osErr e m =>
        if e = 39 then ⟨w, s, ["Directory not empty: " ++ dirname], true⟩
        else ⟨w, s, ["Error removing directory: " ++ m], true⟩
     | .exc m => ⟨w, s, ["Error removing directory: " ++ m], true⟩)
  | _ => ⟨w, s, ["Usage: rmdir/rd <directory>"], true⟩

/-- `Terminal.execute_external_command`: `subprocess.run(args,
cwd=self.current_dir)`; the child's exit status is discarded and every
branch returns `true`. -/
def execute_external_command (w : OS) (s : Session) (args : List String) :
    ExecResult :=
  match w.spawnRes args s.current_dir with
  | .ok => ⟨w, s, [], true⟩
  | .notFound => ⟨w, s, ["Command not found: " ++ args.headD ""], true⟩
  | .err m => ⟨w, s, ["Error executing command: " ++ m], true⟩

/-- The dispatch of `Terminal.execute_command` after tokenization (lines
69–99): first token lowercased, compared against the built-in names;
anything else goes to the external launcher. -/
def execute_tokens (w : OS) (s : Session) (args : List String) : ExecResult :=
  match args with
  | [] => ⟨w, s, [], true⟩
  | cmd :: _ =>
    let command := pyLower cmd
    if command = "exit" then ⟨w, s, [], false⟩
    else if command = "cd" then handle_cd w s args
    else if command = "pwd" then handle_pwd w s
    else if command = "help" then handle_help w s
    else if command = "clear" ∨ command = "cls" then handle_clear w s
    else if command = "history" then handle_history w s
    else if command = "echo" then handle_echo w s args
    else if command = "dir" ∨ command = "ls" then handle_dir w s args
    else if command = "cat" ∨ command = "type" then handle_cat w s args
    else if command = "mkdir" ∨ command = "md" then handle_mkdir w s args
    else if command = "rmdir" ∨ command = "rd" then handle_rmdir w s args
    else execute_external_command w s args

/-- `Terminal.execute_command`: `shlex.split`, whose `ValueError` prints
the syntax diagnostic and continues; otherwise dispatch on the tokens. -/
def execute_command (w : OS) (s : Session) (user_input : String) :
    ExecResult :=
  match w.shlexRes user_input with
  | none => ⟨w, s, ["Error: Invalid command syntax"], true⟩
  | some args => execute_tokens w s args

/-- One iteration of `Terminal.run` (lines 26–39) on one line of input:
strip, skip when empty, append the stripped line to history, execute. -/
def runStep (w : OS) (s : Session) (line : String) : ExecResult :=
  let user_input := pyStrip line
  if user_input = "" then ⟨w, s, [], true⟩
  else
    execute_command w { s with history := s.history ++ [user_input] }
      user_input

/-- `Terminal.run` over a finite list of input lines (end of list = EOF):
iterate `runStep` until a step returns `false`. -/
def runLines (w : OS) (s : Session) : List String → OS × Session
  | [] => (w, s)
  | line :: rest =>
    let r := runStep w s line
    if r.cont then runLines r.os r.session rest else (r.os, r.session)

/-- `Terminal.__init__`: `current_dir` is captured from `os.getcwd()`,
history starts empty. -/
def initSession (w : OS) (username hostname : String) : Session :=
  { current_dir := w.oscwd, username := username, hostname := hostname,
    history := [] }

/-- A filesystem with nothing in it, for concrete instantiations. -/
def fs0 : FS :=
  { dirs := fun _ => false, dirNonEmpty := fun _ => false,
    readFile := fun _ => .notFound, mkdirErr := fun _ => none,
    lookupDir := fun _ => .missing }

/-- A minimal concrete environment: cwd `/w`, home `/home/u`, every
`chdir` fails with not-found, `shlex` always errors, spawns succeed. -/
def os0 : OS :=
  { fs := fs0, oscwd := "/w", home := "/home/u",
    chdirRes := fun _ => .notFound, shlexRes := fun _ => none,
    spawnRes := fun _ _ => .ok }

/-- A concrete session matching `os0`'s working directory. -/
def sess0 : Session := ⟨"/w", "u", "h", []⟩

example : pyStrip "  pwd " = "pwd" := by decide
example : pyLower "ExIt" = "exit" := by decide
example : pathJoin "/w" "~" = "/w/~" := by decide
example : absOf "/w" "~" = "/w/~" := by decide
example : resolvePathSpec "/home/u" "/w" "~" = "/home/u" := by decide
example : cdTarget "/home/u" "/w" ["cd", "~/x"] = "/home/u/x" := by decide
example : pyComma 1234567 = "1,234,567" := by decide
example : rightAlign 4 "12" = "  12" := by decide
example : fmtHistIndex 3 = "   3" := by decide
example : (handle_dir os0 sess0 ["dir", "~"]).output
    = ["Directory not found: ~"] := by decide
example : (runStep os0 sess0 "  pwd").session.history = ["pwd"] := by decide

/-! ### Handler-level invariants -/

/-- Every branch of `handle_cd` returns `true`. -/
theorem handle_cd_cont (w : OS) (s : Session) (args : List String) :
    (handle_cd w s args).cont = true := by
  unfold handle_cd; split <;> rfl

/-- `handle_cd` never touches the history. -/
theorem handle_cd_history (w : OS) (s : Session) (args : List String) :
    (handle_cd w s args).session.history = s.history := by
  unfold handle_cd; split <;> rfl

/-- `handle_cd` keeps the process cwd and the session field in lock step:
on success both become the canonical target, on failure both are
untouched. -/
theorem handle_cd_inv (w : OS) (s : Session) (args : List String)
    (hinv : w.oscwd = s.current_dir) :
    (handle_cd w s args).os.oscwd = (handle_cd w s args).session.current_dir := by
  unfold handle_cd; split <;> simp [hinv]

/-- `handle_echo` changes no state and returns `true`. -/
theorem handle_echo_state (w : OS) (s : Session) (args : List String) :
    (handle_echo w s args).os = w ∧ (handle_echo w s args).session = s ∧
    (handle_echo w s args).cont = true := by
  unfold handle_echo; split <;> exact ⟨rfl, rfl, rfl⟩

/-- `handle_dir` changes no state and returns `true`. -/
theorem handle_dir_state (w : OS) (s : Session) (args : List String) :
    (handle_dir w s args).os = w ∧ (handle_dir w s args).session = s ∧
    (handle_dir w s args).cont = true := by
  unfold handle_dir; split <;> exact ⟨rfl, rfl, rfl⟩

/-- `handle_cat` changes no state and returns `true`. -/
theorem handle_cat_state (w : OS) (s : Session) (args : List String) :
    (handle_cat w s args).os = w ∧ (handle_cat w s args).session = s ∧
    (handle_cat w s args).cont = true := by
  unfold handle_cat; split <;> exact ⟨rfl, rfl, rfl⟩

/-- `handle_mkdir` keeps the session, the process cwd and the loop signal. -/
theorem handle_mkdir_state (w : OS) (s : Session) (args : List String) :
    (handle_mkdir w s args).os.oscwd = w.oscwd ∧
    (handle_mkdir w s args).session = s ∧
    (handle_mkdir w s args).cont = true := by
  unfold handle_mkdir
  split
  · split <;> exact ⟨rfl, rfl, rfl⟩
  · exact ⟨rfl, rfl, rfl⟩

/-- `handle_rmdir` keeps the session, the process cwd and the loop signal. -/
theorem handle_rmdir_state (w : OS) (s : Session) (args : List String) :
    (handle_rmdir w s args).os.oscwd = w.oscwd ∧
    (handle_rmdir w s args).session = s ∧
    (handle_rmdir w s args).cont = true := by
  unfold handle_rmdir
  split
  · split
    · exact ⟨rfl, rfl, rfl⟩
    · exact ⟨rfl, rfl, rfl⟩
    · split <;> exact ⟨rfl, rfl, rfl⟩
    · exact ⟨rfl, rfl, rfl⟩
  · exact ⟨rfl, rfl, rfl⟩

/-- The external launcher changes no state and returns `true`. -/
theorem execute_external_state (w : OS) (s : Session) (args : List String) :
    (execute_external_command w s args).os = w ∧
    (execute_external_command w s args).session = s ∧
    (execute_external_command w s args).cont = true := by
  unfold execute_external_command; split <;> exact ⟨rfl, rfl, rfl⟩

/-- Dispatch on a non-`exit` first token always signals `continue`. -/
theorem execute_tokens_cont_of_ne (w : OS) (s : Session) (cmd : String)
    (rest : List String) (hne : ¬ pyLower cmd = "exit") :
    (execute_tokens w s (cmd :: rest)).cont = true := by
  unfold execute_tokens
  simp only [if_neg hne]
  repeat' split
  all_goals
    first
      | rfl
      | exact handle_cd_cont _ _ _
      | exact (handle_echo_state _ _ _).2.2
      | exact (handle_dir_state _ _ _).2.2
      | exact (handle_cat_state _ _ _).2.2
      | exact (handle_mkdir_state _ _ _).2.2
      | exact (handle_rmdir_state _ _ _).2.2
      | exact (execute_external_state _ _ _).2.2

set_option maxHeartbeats 1000000 in
/-- Dispatch never rewrites the history. -/
theorem execute_tokens_history (w : OS) (s : Session) (args : List String) :
    (execute_tokens w s args).session.history = s.history := by
  unfold execute_tokens
  cases args with
  | nil => rfl
  | cons cmd rest =>
    dsimp only
    repeat' split
    all_goals
      first
        | rfl
        | exact handle_cd_history _ _ _
        | exact congrArg Session.history (handle_echo_state _ _ _).2.1
        | exact congrArg Session.history (handle_dir_state _ _ _).2.1
        | exact congrArg Session.history (handle_cat_state _ _ _).2.1
        | exact congrArg Session.history (handle_mkdir_state _ _ _).2.1
        | exact congrArg Session.history (handle_rmdir_state _ _ _).2.1
        | exact congrArg Session.history (execute_external_state _ _ _).2.1

/-- `execute_command` never rewrites the history. -/
theorem execute_command_history (w : OS) (s : Session) (input : String) :
    (execute_command w s input).session.history = s.history := by
  unfold execute_command
  cases w.shlexRes input with
  | none => rfl
  | some args => exact execute_tokens_history w s args

set_option maxHeartbeats 1000000 in
/-- Dispatch preserves "process cwd = session `current_dir`". -/
theorem execute_tokens_inv (w : OS) (s : Session) (args : List String)
    (hinv : w.oscwd = s.current_dir) :
    (execute_tokens w s args).os.oscwd
      = (execute_tokens w s args).session.current_dir := by
  unfold execute_tokens
  cases args with
  | nil => exact hinv
  | cons cmd rest =>
    dsimp only
    repeat' split
    all_goals
      first
        | exact hinv
        | exact handle_cd_inv _ _ _ hinv
        | exact ((handle_echo_state w s (cmd :: rest)).1.symm ▸
            (handle_echo_state w s (cmd :: rest)).2.1.symm ▸ hinv)
        | exact ((handle_dir_state w s (cmd :: rest)).1.symm ▸
            (handle_dir_state w s (cmd :: rest)).2.1.symm ▸ hinv)
        | exact ((handle_cat_state w s (cmd :: rest)).1.symm ▸
            (handle_cat_state w s (cmd :: rest)).2.1.symm ▸ hinv)
        | exact ((handle_mkdir_state w s (cmd :: rest)).1.symm ▸
            (handle_mkdir_state w s (cmd :: rest)).2.1.symm ▸ hinv)
        | exact ((handle_rmdir_state w s (cmd :: rest)).1.symm ▸
            (handle_rmdir_state w s (cmd :: rest)).2.1.symm ▸ hinv)
        | exact ((execute_external_state w s (cmd :: rest)).1.symm ▸
            (execute_external_state w s (cmd :: rest)).2.1.symm ▸ hinv)

/-- `execute_command` preserves "process cwd = session `current_dir`". -/
theorem execute_command_inv (w : OS) (s : Session) (input : String)
    (hinv : w.oscwd = s.current_dir) :
    (execute_command w s input).os.oscwd
      = (execute_command w s input).session.current_dir := by
  unfold execute_command
  cases w.shlexRes input with
  | none => exact hinv
  | some args => exact execute_tokens_inv w s args hinv

/-! ### Claim C1 -/

/-- C1: whenever the `cd` built-in's directory change fails (not found,
permission denied, or any other error), the session — in particular its
working directory — and the process state are exactly as before, exactly
one diagnostic line is printed, and the handler signals `continue`. -/
theorem cd_failure_keeps_state (w : OS) (s : Session) (args : List String)
    (hfail : (w.chdirRes (cdTarget w.home s.current_dir args)).isOk = false) :
    (handle_cd w s args).os = w ∧ (handle_cd w s args).session = s ∧
    (handle_cd w s args).output.length = 1 ∧
    (handle_cd w s args).cont = true := by
  unfold handle_cd
  cases h : w.chdirRes (cdTarget w.home s.current_dir args) with
  | ok canon => rw [h] at hfail; exact absurd hfail (by simp [ChdirOutcome.isOk])
  | notFound => exact ⟨rfl, rfl, rfl, rfl⟩
  | permission => exact ⟨rfl, rfl, rfl, rfl⟩
  | err m => exact ⟨rfl, rfl, rfl, rfl⟩

/-- Witness for C1 at a concrete failing `cd`. -/
theorem cd_failure_keeps_state_witness :
    (handle_cd os0 sess0 ["cd", "/nope"]).os = os0 ∧
    (handle_cd os0 sess0 ["cd", "/nope"]).session = sess0 ∧
    (handle_cd os0 sess0 ["cd", "/nope"]).output.length = 1 ∧
    (handle_cd os0 sess0 ["cd", "/nope"]).cont = true :=
  cd_failure_keeps_state os0 sess0 ["cd", "/nope"] (by decide)

/-! ### Claim C9 -/

/-- C9: any first token that lowercases to `exit` terminates the session
no matter how many further arguments follow: dispatch returns the exit
signal with no output and no state change, and the loop then stops,
ignoring all remaining input lines. -/
theorem exit_ignores_extra_args (w : OS) (s : Session) (cmd : String)
    (rest : List String) (hlow : pyLower cmd = "exit") :
    execute_tokens w s (cmd :: rest) = ⟨w, s, [], false⟩ ∧
    (∀ (w' : OS) (s' : Session) (line : String) (more : List String),
       (runStep w' s' line).cont = false →
       runLines w' s' (line :: more)
         = ((runStep w' s' line).os, (runStep w' s' line).session)) := by
  constructor
  · unfold execute_tokens
    simp [hlow]
  · intro w' s' line more hstop
    unfold runLines
    simp [hstop]

/-- An environment whose tokenizer yields `exit a b` for any line. -/
def osExit : OS := { os0 with shlexRes := fun _ => some ["exit", "a", "b"] }

/-- Witness for C9: `EXIT a b` exits immediately, and the loop stops on a
line that tokenizes to `exit a b`, ignoring the rest of the input. -/
theorem exit_ignores_extra_args_witness :
    execute_tokens os0 sess0 ["EXIT", "a", "b"] = ⟨os0, sess0, [], false⟩ ∧
    runLines osExit sess0 ["exit a b", "pwd"]
      = ((runStep osExit sess0 "exit a b").os,
         (runStep osExit sess0 "exit a b").session) :=
  ⟨(exit_ignores_extra_args os0 sess0 "EXIT" ["a", "b"] (by decide)).1,
   (exit_ignores_extra_args os0 sess0 "EXIT" ["a", "b"] (by decide)).2
     osExit sess0 "exit a b" ["pwd"] (by decide)⟩

/-! ### Claim C10 -/

/-- C10: `cat`/`type`, `mkdir`/`md` and `rmdir`/`rd` given two or more
arguments behave exactly as if given the first argument alone — identical
state change, identical output, no diagnostic about the extras. -/
theorem extra_args_ignored (w : OS) (s : Session) (c a : String)
    (r : List String) :
    handle_cat w s (c :: a :: r) = handle_cat w s [c, a] ∧
    handle_mkdir w s (c :: a :: r) = handle_mkdir w s [c, a] ∧
    handle_rmdir w s (c :: a :: r) = handle_rmdir w s [c, a] :=
  ⟨rfl, rfl, rfl⟩

/-! ### Claim C3 -/

/-- C3: dispatch on a non-empty token sequence returns the exit signal iff
the first token lowercased is `exit`; every other path continues, and in
particular a tokenization failure prints the syntax diagnostic and
continues. -/
theorem dispatch_exit_iff (w : OS) (s : Session) (cmd : String)
    (rest : List String) (input : String)
    (hsyn : w.shlexRes input = none) :
    ((execute_tokens w s (cmd :: rest)).cont = false ↔ pyLower cmd = "exit")
    ∧ (execute_command w s input).cont = true
    ∧ (execute_command w s input).output
        = ["Error: Invalid command syntax"] := by
  refine ⟨⟨fun hc => ?_, fun hlow => ?_⟩, ?_, ?_⟩
  · by_contra hne
    rw [execute_tokens_cont_of_ne w s cmd rest hne] at hc
    exact absurd hc (by simp)
  · unfold execute_tokens
    simp [hlow]
  · unfold execute_command
    rw [hsyn]
  · unfold execute_command
    rw [hsyn]

/-- Witness for C3 at concrete inputs, the syntax-error hypothesis
discharged by `os0`'s always-failing tokenizer. -/
theorem dispatch_exit_iff_witness :
    ((execute_tokens os0 sess0 ["ExIt", "x"]).cont = false
       ↔ pyLower "ExIt" = "exit")
    ∧ (execute_command os0 sess0 "echo oops").cont = true
    ∧ (execute_command os0 sess0 "echo oops").output
        = ["Error: Invalid command syntax"] :=
  dispatch_exit_iff os0 sess0 "ExIt" ["x"] "echo oops" rfl

/-! ### Claim C4 -/

/-- `runStep` appends the stripped line to the history exactly when it is
non-empty, and execution afterwards never touches the history. -/
theorem runStep_history (w : OS) (s : Session) (line : String) :
    (runStep w s line).session.history
      = s.history ++ (if pyStrip line = "" then [] else [pyStrip line]) := by
  unfold runStep
  by_cases h : pyStrip line = ""
  · simp [h]
  · simp only [if_neg h]
    rw [execute_command_history]

/-- Index correspondence for `historyLines`, generalized over the
enumeration start. -/
theorem histAux : ∀ (l : List String) (n i : Nat), i < l.length →
    ((List.enumFrom n l).map
        (fun p => fmtHistIndex p.1 ++ "  " ++ p.2)).getD i ""
      = fmtHistIndex (n + i) ++ "  " ++ l.getD i ""
  | [], _, i, hi => absurd hi (by simp)
  | x :: xs, n, 0, _ => by simp [List.enumFrom]
  | x :: xs, n, i + 1, hi => by
      have hrec := histAux xs (n + 1) i (by simpa using hi)
      have hn : n + (i + 1) = (n + 1) + i := by omega
      simp only [List.enumFrom, List.map_cons, List.getD_cons_succ, hn]
      exact hrec

/-- C4 (amended): on every loop iteration the *stripped* input line is
appended to history exactly once iff it is non-empty after stripping; the
append happens before tokenization and execution (which never modify the
history, so failing lines stay recorded); `history` then prints those
entries 1-indexed in input order. -/
theorem history_append_discipline :
    (∀ (w : OS) (s : Session) (line : String),
       (runStep w s line).session.history
         = s.history ++ (if pyStrip line = "" then [] else [pyStrip line]))
    ∧ (∀ (w : OS) (s : Session) (input : String),
       (execute_command w s input).session.history = s.history)
    ∧ (∀ (h : List String), (historyLines h).length = h.length)
    ∧ (∀ (h : List String) (i : Nat), i < h.length →
       (historyLines h).getD i ""
         = fmtHistIndex (i + 1) ++ "  " ++ h.getD i "") := by
  refine ⟨runStep_history, execute_command_history, ?_, ?_⟩
  · intro h
    simp [historyLines]
  · intro h i hi
    unfold historyLines
    rw [histAux h 1 i hi, Nat.add_comm]

/-- Witness for C4's amended claim at concrete inputs. -/
theorem history_append_discipline_witness :
    (runStep os0 sess0 " x ").session.history
      = sess0.history ++ (if pyStrip " x " = "" then [] else [pyStrip " x "])
    ∧ (historyLines ["a", "b"]).getD 1 ""
      = fmtHistIndex (1 + 1) ++ "  " ++ ["a", "b"].getD 1 "" :=
  ⟨history_append_discipline.1 os0 sess0 " x ",
   history_append_discipline.2.2.2 ["a", "b"] 1 (by decide)⟩

/-- C4 counterexample: the *raw* line is not what is appended — a line
with surrounding whitespace is recorded stripped. -/
theorem raw_line_not_recorded :
    (runStep os0 sess0 "  pwd").session.history = ["pwd"] ∧
    (runStep os0 sess0 "  pwd").session.history ≠ ["  pwd"] := by
  constructor <;> decide

/-! ### Claim C2 -/

/-- C2 (amended): `cd` applies the resolver rules exactly (tilde expansion,
then join against the session cwd); the other path-taking built-ins —
`dir`/`ls`, `cat`/`type`, `mkdir`/`md` and `rmdir`/`rd` — pass the
argument verbatim to the OS, where a relative argument — tilde included,
unexpanded — is resolved against the process cwd. -/
theorem resolver_only_for_cd (home cwd : Path) (w : OS) (s : Session)
    (c p : String) (r : List String) (hrel : isAbs p = false) :
    cdTarget home cwd (c :: p :: r) = resolvePathSpec home cwd p
    ∧ handle_dir w s (c :: p :: r) = ⟨w, s, dirOutput w p, true⟩
    ∧ handle_cat w s (c :: p :: r) = ⟨w, s, catOutput w p, true⟩
    ∧ handle_mkdir w s (c :: p :: r)
        = (match w.fs.mkdirErr (absOf w.oscwd p) with
           | none =>
              ⟨{ w with fs := { w.fs with
                   dirs := fun q => q == absOf w.oscwd p || w.fs.dirs q } },
                s, ["Directory created: " ++ p], true⟩
           | some m => ⟨w, s, ["Error creating directory: " ++ m], true⟩)
    ∧ handle_rmdir w s (c :: p :: r)
        = (match osRmdir w p with
           | .ok fs2 => ⟨{ w with fs := fs2 }, s,
                ["Directory removed: " ++ p], true⟩
           | .notFound => ⟨w, s, ["Directory not found: " ++ p], true⟩
           | .osErr e m =>
              if e = 39 then ⟨w, s, ["Directory not empty: " ++ p], true⟩
              else ⟨w, s, ["Error removing directory: " ++ m], true⟩
           | .exc m => ⟨w, s, ["Error removing directory: " ++ m], true⟩)
    ∧ absOf w.oscwd p = pathJoin w.oscwd p := by
  refine ⟨rfl, rfl, rfl, rfl, rfl, ?_⟩
  simp [absOf, hrel]

/-- Witness for C2's amended claim at a concrete relative argument. -/
theorem resolver_only_for_cd_witness :
    cdTarget "/home/u" "/w" ["cd", "x"] = resolvePathSpec "/home/u" "/w" "x"
    ∧ handle_dir os0 sess0 ["dir", "x"] = ⟨os0, sess0, dirOutput os0 "x", true⟩
    ∧ handle_cat os0 sess0 ["cat", "x"]
        = ⟨os0, sess0, catOutput os0 "x", true⟩
    ∧ handle_mkdir os0 sess0 ["mkdir", "x"]
        = (match os0.fs.mkdirErr (absOf os0.oscwd "x") with
           | none =>
              ⟨{ os0 with fs := { os0.fs with
                   dirs := fun q => q == absOf os0.oscwd "x" || os0.fs.dirs q } },
                sess0, ["Directory created: " ++ "x"], true⟩
           | some m =>
              ⟨os0, sess0, ["Error creating directory: " ++ m], true⟩)
    ∧ handle_rmdir os0 sess0 ["rmdir", "x"]
        = (match osRmdir os0 "x" with
           | .ok fs2 => ⟨{ os0 with fs := fs2 }, sess0,
                ["Directory removed: " ++ "x"], true⟩
           | .notFound =>
              ⟨os0, sess0, ["Directory not found: " ++ "x"], true⟩
           | .osErr e m =>
              if e = 39 then
                ⟨os0, sess0, ["Directory not empty: " ++ "x"], true⟩
              else ⟨os0, sess0, ["Error removing directory: " ++ m], true⟩
           | .exc m =>
              ⟨os0, sess0, ["Error removing directory: " ++ m], true⟩)
    ∧ absOf os0.oscwd "x" = pathJoin os0.oscwd "x" := by
  have h := resolver_only_for_cd "/home/u" "/w" os0 sess0 "cd" "x" [] (by decide)
  have h2 := resolver_only_for_cd "/home/u" "/w" os0 sess0 "dir" "x" [] (by decide)
  have h3 := resolver_only_for_cd "/home/u" "/w" os0 sess0 "cat" "x" [] (by decide)
  have h4 := resolver_only_for_cd "/home/u" "/w" os0 sess0 "mkdir" "x" [] (by decide)
  have h5 := resolver_only_for_cd "/home/u" "/w" os0 sess0 "rmdir" "x" [] (by decide)
  exact ⟨h.1, h2.2.1, h3.2.2.1, h4.2.2.2.1, h5.2.2.2.2.1, h.2.2.2.2.2⟩

/-- A filesystem in which only the home directory `/home/u` exists (as an
empty, listable directory). -/
def fsTilde : FS :=
  { fs0 with lookupDir := fun p =>
      if p == "/home/u" then .ok ⟨[], false⟩ else .missing }

/-- `fs0`'s environment over `fsTilde`. -/
def osTilde : OS := { os0 with fs := fsTilde }

/-- C2 counterexample: the listing built-in does not apply the resolver.
`dir ~` probes `/w/~` (the verbatim `~` joined under the process cwd) and
reports not-found, although the resolver's result `/home/u` exists and
lists fine. -/
theorem tilde_unresolved_counterexample :
    resolvePathSpec osTilde.home sess0.current_dir "~" = "/home/u"
    ∧ osTilde.fs.lookupDir "/home/u" = .ok ⟨[], false⟩
    ∧ absOf osTilde.oscwd "~" = "/w/~"
    ∧ (handle_dir osTilde sess0 ["dir", "~"]).output
        = ["Directory not found: ~"] := by
  refine ⟨by decide, by decide, by decide, by decide⟩

/-! ### Claim C7 -/

/-- C7: `rmdir` on an existing non-empty directory prints the specific
"Directory not empty" message (not the generic one), leaves the directory
in existence, and continues the loop. -/
theorem rmdir_nonempty (w : OS) (s : Session) (c d : String)
    (r : List String)
    (hex : w.fs.dirs (absOf w.oscwd d) = true)
    (hne : w.fs.dirNonEmpty (absOf w.oscwd d) = true) :
    (handle_rmdir w s (c :: d :: r)).output = ["Directory not empty: " ++ d]
    ∧ (handle_rmdir w s (c :: d :: r)).os.fs.dirs (absOf w.oscwd d) = true
    ∧ (handle_rmdir w s (c :: d :: r)).cont = true := by
  unfold handle_rmdir osRmdir
  simp [hex, hne]

/-- A filesystem holding one non-empty directory `/w/x`. -/
def fsNE : FS :=
  { fs0 with dirs := fun p => p == "/w/x",
             dirNonEmpty := fun p => p == "/w/x" }

/-- `fs0`'s environment over `fsNE`. -/
def osNE : OS := { os0 with fs := fsNE }

/-- Witness for C7: removing the non-empty `/w/x` through its relative
name `x`. -/
theorem rmdir_nonempty_witness :
    (handle_rmdir osNE sess0 ["rmdir", "x"]).output
      = ["Directory not empty: " ++ "x"]
    ∧ (handle_rmdir osNE sess0 ["rmdir", "x"]).os.fs.dirs
        (absOf osNE.oscwd "x") = true
    ∧ (handle_rmdir osNE sess0 ["rmdir", "x"]).cont = true :=
  rmdir_nonempty osNE sess0 "rmdir" "x" [] (by decide) (by decide)

/-! ### Claim C8 -/

/-- C8: the process cwd equals the session's `current_dir` whenever a
command runs — it is initialized from `getcwd`, every dispatch preserves
the equality (a successful `cd` moves both to the canonical target), and
so a relative path that a built-in passes verbatim to the OS still
resolves against the session's cwd. -/
theorem cwd_invariant (w : OS) (s : Session) (un hn : String)
    (args : List String) (input line : String)
    (hinv : w.oscwd = s.current_dir) :
    (initSession w un hn).current_dir = w.oscwd
    ∧ (execute_tokens w s args).os.oscwd
        = (execute_tokens w s args).session.current_dir
    ∧ (execute_command w s input).os.oscwd
        = (execute_command w s input).session.current_dir
    ∧ (runStep w s line).os.oscwd = (runStep w s line).session.current_dir
    ∧ (∀ p : Path, isAbs p = false →
         absOf w.oscwd p = pathJoin s.current_dir p) := by
  refine ⟨rfl, execute_tokens_inv w s args hinv,
    execute_command_inv w s input hinv, ?_, ?_⟩
  · unfold runStep
    by_cases h : pyStrip line = ""
    · simp [h, hinv]
    · simp only [if_neg h]
      exact execute_command_inv w _ _ hinv
  · intro p hp
    rw [hinv]
    simp [absOf, hp]

/-- Witness for C8 at the concrete startup state. -/
theorem cwd_invariant_witness :
    (initSession os0 "u" "h").current_dir = os0.oscwd
    ∧ (execute_tokens os0 sess0 ["pwd"]).os.oscwd
        = (execute_tokens os0 sess0 ["pwd"]).session.current_dir
    ∧ (execute_command os0 sess0 "pwd").os.oscwd
        = (execute_command os0 sess0 "pwd").session.current_dir
    ∧ (runStep os0 sess0 "pwd").os.oscwd
        = (runStep os0 sess0 "pwd").session.current_dir
    ∧ absOf os0.oscwd "x" = pathJoin sess0.current_dir "x" := by
  have h := cwd_invariant os0 sess0 "u" "h" ["pwd"] "pwd" "pwd" rfl
  exact ⟨h.1, h.2.1, h.2.2.1, h.2.2.2.1, h.2.2.2.2 "x" (by decide)⟩

/-! ### Claim C5 -/

/-- C5: listing an existing, readable, empty directory prints `0` File(s),
`0` bytes, and a Dir(s) count that is 1 exactly when the directory is not
its own filesystem root — the 1 being the synthetic `..` parent entry. -/
theorem empty_listing_counts (w : OS) (s : Session) (c p : String)
    (r : List String) (root : Bool)
    (hlk : w.fs.lookupDir (absOf w.oscwd p) = .ok ⟨[], root⟩) :
    (handle_dir w s (c :: p :: r)).output
      = ["\nDirectory of " ++ absOf w.oscwd p ++ "\n"]
        ++ (if root = true then []
            else [rightAlign 12 "<DIR>" ++ "          .."])
        ++ ["\n" ++ rightAlign 16 (toString (0 : Nat)) ++ " File(s) "
              ++ rightAlign 15 (pyComma 0) ++ " bytes",
            rightAlign 16 (toString (if root = true then 0 else 1 : Nat))
              ++ " Dir(s)"]
    ∧ (dirCounts ⟨[], root⟩).file_count = 0
    ∧ (dirCounts ⟨[], root⟩).total_size = 0
    ∧ ((dirCounts ⟨[], root⟩).dir_count = 1 ↔ root = false) := by
  have hc : dirCounts ⟨[], root⟩ = ⟨0, if root = true then 0 else 1, 0⟩ := by
    simp [dirCounts, sortEntries, List.mergeSort_nil]
  refine ⟨?_, by rw [hc], by rw [hc], by rw [hc]; cases root <;> simp⟩
  unfold handle_dir dirOutput
  dsimp only
  rw [hlk]
  cases root <;>
    simp [dirRows, dirSummary, dirCounts, sortEntries, List.mergeSort_nil]

/-- Witness for C5: listing the empty, non-root `/home/u`. -/
theorem empty_listing_counts_witness :
    (handle_dir osTilde sess0 ["dir", "/home/u"]).output
      = ["\nDirectory of " ++ absOf osTilde.oscwd "/home/u" ++ "\n"]
        ++ (if false = true then []
            else [rightAlign 12 "<DIR>" ++ "          .."])
        ++ ["\n" ++ rightAlign 16 (toString (0 : Nat)) ++ " File(s) "
              ++ rightAlign 15 (pyComma 0) ++ " bytes",
            rightAlign 16 (toString (if false = true then 0 else 1 : Nat))
              ++ " Dir(s)"]
    ∧ (dirCounts ⟨[], false⟩).file_count = 0
    ∧ (dirCounts ⟨[], false⟩).total_size = 0
    ∧ ((dirCounts ⟨[], false⟩).dir_count = 1 ↔ false = false) :=
  empty_listing_counts osTilde sess0 "dir" "/home/u" [] false (by decide)

/-! ### Claim C6 -/

/-- `charListLe` is transitive (code-point lexicographic order). -/
theorem charListLe_trans : ∀ a b c : List Char, charListLe a b = true →
    charListLe b c = true → charListLe a c = true
  | [], _, _, _, _ => by simp [charListLe]
  | _ :: _, [], _, hab, _ => by simp [charListLe] at hab
  | _ :: _, _ :: _, [], _, hbc => by simp [charListLe] at hbc
  | x :: xs, y :: ys, z :: zs, hab, hbc => by
      unfold charListLe at hab hbc ⊢
      by_cases h1 : x.toNat = y.toNat
      · by_cases h2 : y.toNat = z.toNat
        · rw [if_pos h1] at hab
          rw [if_pos h2] at hbc
          rw [if_pos (h1.trans h2)]
          exact charListLe_trans xs ys zs hab hbc
        · rw [if_pos h1] at hab
          rw [if_neg h2] at hbc
          have hyz := of_decide_eq_true hbc
          rw [if_neg (by omega)]
          exact decide_eq_true (by omega)
      · by_cases h2 : y.toNat = z.toNat
        · rw [if_neg h1] at hab
          have hxy := of_decide_eq_true hab
          rw [if_neg (by omega)]
          exact decide_eq_true (by omega)
        · rw [if_neg h1] at hab
          rw [if_neg h2] at hbc
          have hxy := of_decide_eq_true hab
          have hyz := of_decide_eq_true hbc
          rw [if_neg (by omega)]
          exact decide_eq_true (by omega)

/-- `charListLe` is total. -/
theorem charListLe_total : ∀ a b : List Char,
    (charListLe a b || charListLe b a) = true
  | [], _ => by simp [charListLe]
  | _ :: _, [] => by simp [charListLe]
  | x :: xs, y :: ys => by
      unfold charListLe
      by_cases h : x.toNat = y.toNat
      · rw [if_pos h, if_pos h.symm]
        exact charListLe_total xs ys
      · rw [if_neg h, if_neg (fun hyx => h hyx.symm)]
        simp only [Bool.or_eq_true, decide_eq_true_eq]
        omega

/-- The tuple order `keyLe` is transitive. -/
theorem keyLe_trans (a b c : Bool × String) (hab : keyLe a b = true)
    (hbc : keyLe b c = true) : keyLe a c = true := by
  rcases a with ⟨a1, a2⟩
  rcases b with ⟨b1, b2⟩
  rcases c with ⟨c1, c2⟩
  cases a1 <;> cases b1 <;> cases c1 <;>
    simp_all [keyLe, boolLt, pyStrLe] <;>
    exact charListLe_trans _ _ _ hab hbc

/-- The tuple order `keyLe` is total. -/
theorem keyLe_total (a b : Bool × String) :
    (keyLe a b || keyLe b a) = true := by
  rcases a with ⟨a1, a2⟩
  rcases b with ⟨b1, b2⟩
  cases a1 <;> cases b1 <;> simp_all [keyLe, boolLt, pyStrLe] <;>
    have := charListLe_total a2.data b2.data <;> simp_all

/-- `entryLe` is transitive. -/
theorem entryLe_trans (a b c : Entry) (hab : entryLe a b = true)
    (hbc : entryLe b c = true) : entryLe a c = true :=
  keyLe_trans _ _ _ hab hbc

/-- `entryLe` is total. -/
theorem entryLe_total (a b : Entry) : (entryLe a b || entryLe b a) = true :=
  keyLe_total _ _

/-- C6: a listing prints the synthetic parent row first and then exactly
the directory's entries in ascending order of the composite key
`(not is_directory, lowercased name)` — directories before files,
case-insensitive name order inside each group. -/
theorem listing_sorted (d : DirInfo) :
    dirRows d
      = (if d.isRoot = true then []
          else [rightAlign 12 "<DIR>" ++ "          .."])
        ++ (sortEntries d.entries).map entryRow
    ∧ List.Pairwise (fun a b => entryLe a b = true) (sortEntries d.entries)
    ∧ (sortEntries d.entries).Perm d.entries :=
  ⟨rfl, List.sorted_mergeSort entryLe_trans entryLe_total d.entries,
   List.mergeSort_perm d.entries entryLe⟩
